import Mathlib

/-!
Verification development for the game-statistics aggregation services of the
portfolio repository (`src/services/steam.js`, `src/services/blizzard.js`,
the Path of Exile service, and the NFT/Reservoir service).

The JavaScript services are shallowly embedded as pure Lean functions:

* HTTP transports are explicit arguments (`HttpResp`): a call either fails at
  the network layer or yields a status code and an already-parsed JSON body of
  the expected Lean shape, with `Option` fields for JSON fields that may be
  absent.
* The distinction between JavaScript `undefined`, `null`, and a present value
  — which matters for the schema-completeness claims — is kept via `JsOpt`.
* `async`/`await` sequencing is modelled as ordinary sequential evaluation;
  each function additionally returns the number of HTTP requests it issued
  (token requests and data requests counted separately for the OAuth service).
* JavaScript exceptions that escape a service function are modelled with
  `FetchOutcome.thrown` / `Except.error`; functions whose source code cannot
  throw return plain values.
* The ambient clock (`Date.now()`, milliseconds) is an explicit parameter.
-/

/-- JavaScript value that may be `undefined`, `null`, or a proper value. -/
inductive JsOpt (α : Type) where
  | undef : JsOpt α
  | null : JsOpt α
  | val : α → JsOpt α
deriving DecidableEq, Repr

/-- Reading an optional JSON field in JavaScript: an absent field is `undefined`. -/
def jsOfOpt {α : Type} : Option α → JsOpt α
  | none => .undef
  | some a => .val a

/-- Whether a `JsOpt` value is set (i.e. not `undefined`). -/
def JsOpt.isSet {α : Type} : JsOpt α → Bool
  | .undef => false
  | _ => true

/-- JavaScript `x || d` for an optional integer field (`0` is falsy). -/
def jsOrInt (o : Option Int) (d : Int) : Int :=
  match o with
  | none => d
  | some v => if v = 0 then d else v

/-- JavaScript `x || d` for an optional string field (`""` is falsy). -/
def jsOrStr (o : Option String) (d : String) : String :=
  match o with
  | none => d
  | some s => if s = "" then d else s

/-- JavaScript `s || d` for a plain string (`""` is falsy). -/
def jsOrStrS (s d : String) : String :=
  if s = "" then d else s

/-- JavaScript truthiness of a nullable string (`null`/`undefined`/`""` falsy). -/
def tokenTruthy : Option String → Bool
  | none => false
  | some s => !(s == "")

/-- Whether one character list is a prefix of another. -/
def charsStartWith : List Char → List Char → Bool
  | _, [] => true
  | [], _ :: _ => false
  | c :: cs, d :: ds => c == d && charsStartWith cs ds

/-- Whether `sub` occurs as a contiguous run inside `s`. -/
def charsInclude : List Char → List Char → Bool
  | [], sub => charsStartWith [] sub
  | c :: cs, sub => charsStartWith (c :: cs) sub || charsInclude cs sub

/-- `String.prototype.includes(sub)`: `sub` occurs in `s`. -/
def strIncludes (s sub : String) : Bool :=
  charsInclude s.data sub.data

/-- Outcome of one HTTP request: network-level failure (the `fetch` promise
rejects) or a response carrying a status code and a parsed JSON body. -/
inductive HttpResp (β : Type) where
  | netFail : HttpResp β
  | resp : Nat → β → HttpResp β
deriving DecidableEq, Repr

/-- `response.ok`: status in the 200–299 range. -/
def statusOk (s : Nat) : Bool :=
  200 ≤ s && s < 300

/-- Result of an adapter call: normal return or a thrown JavaScript error
escaping the function (carrying the error message). -/
inductive FetchOutcome (α : Type) where
  | ok : α → FetchOutcome α
  | thrown : String → FetchOutcome α
deriving DecidableEq, Repr

/-! ## Steam service (`src/services/steam.js`) -/

/-- `hasValidCredentials` from steam.js: the API key is a non-empty string and
the Steam id is non-empty and does not contain the placeholder `"0000000000"`. -/
def hasValidCredentials (apiKey steamId : String) : Bool :=
  !(apiKey == "") && !(steamId == "") && !(strIncludes steamId "0000000000")

/-- Upstream player object of `ISteamUser/GetPlayerSummaries/v2`
(fields the service reads; optional ones may be absent). -/
structure SteamPlayerRaw where
  steamid : String
  personaname : String
  avatarfull : String
  profileurl : String
  personastate : Option Int
  lastlogoff : Option Int
  timecreated : Option Int
  realname : Option String
  loccountrycode : Option String
deriving DecidableEq, Repr

/-- Normalized player summary returned by `fetchPlayerSummary`. -/
structure PlayerSummary where
  steamId : String
  personaName : String
  avatarUrl : String
  profileUrl : String
  personaState : JsOpt Int
  lastLogoff : JsOpt Int
  timeCreated : JsOpt Int
  realName : JsOpt String
  countryCode : JsOpt String
deriving DecidableEq, Repr

/-- The field-by-field normalization inside `fetchPlayerSummary`'s success
branch: every field is copied verbatim from the upstream player object. -/
def normalizePlayer (p : SteamPlayerRaw) : PlayerSummary :=
  { steamId := p.steamid
    personaName := p.personaname
    avatarUrl := p.avatarfull
    profileUrl := p.profileurl
    personaState := jsOfOpt p.personastate
    lastLogoff := jsOfOpt p.lastlogoff
    timeCreated := jsOfOpt p.timecreated
    realName := jsOfOpt p.realname
    countryCode := jsOfOpt p.loccountrycode }

/-- `getMockPlayerSummary` (steam.js); `nowMs` is `Date.now()`. -/
def getMockPlayerSummary (nowMs : Int) : PlayerSummary :=
  { steamId := "76561198000000000"
    personaName := "GamerTag"
    avatarUrl := "https://avatars.steamstatic.com/fef49e7fa7e1997310d705b2a6158ff8dc1cdfeb_full.jpg"
    profileUrl := "https://steamcommunity.com/profiles/76561198000000000"
    personaState := .val 1
    lastLogoff := .val (nowMs / 1000 - 3600)
    timeCreated := .val 1293753600
    realName := .null
    countryCode := .val "US" }

/-- `fetchPlayerSummary` (steam.js). The body is
`data.response?.players` (`none` models a root object without that path).
Returns the outcome and the number of HTTP requests issued.
On a non-ok status the thrown `Steam API error` message does not match the
CORS/NetworkError/TypeError classifier of the catch block, so it is re-thrown;
a network-level failure is a `TypeError` and falls back to mock data. -/
def fetchPlayerSummary (apiKey steamId : String) (nowMs : Int)
    (t : HttpResp (Option (List SteamPlayerRaw))) :
    FetchOutcome PlayerSummary × Nat :=
  if hasValidCredentials apiKey steamId = false then
    (.ok (getMockPlayerSummary nowMs), 0)
  else
    match t with
    | .netFail => (.ok (getMockPlayerSummary nowMs), 1)
    | .resp status body =>
      if statusOk status = false then
        (.thrown ("Steam API error: " ++ toString status), 1)
      else
        match body with
        | some (p :: _) => (.ok (normalizePlayer p), 1)
        | _ => (.thrown "Player not found", 1)

/-- `getMockSteamLevel` (steam.js). -/
def getMockSteamLevel : Int := 42

/-- `fetchSteamLevel` (steam.js): every failure path returns the mock level;
the body is `data.response?.player_level`. -/
def fetchSteamLevel (apiKey steamId : String) (t : HttpResp (Option Int)) :
    Int × Nat :=
  if hasValidCredentials apiKey steamId = false then
    (getMockSteamLevel, 0)
  else
    match t with
    | .netFail => (getMockSteamLevel, 1)
    | .resp status body =>
      if statusOk status = false then (getMockSteamLevel, 1)
      else (jsOrInt body 0, 1)

/-- Upstream game object of `IPlayerService/GetOwnedGames/v1`. -/
structure SteamGameRaw where
  appid : Int
  name : String
  playtime_forever : Int
  playtime_2weeks : Option Int
  img_icon_url : Option String
  rtime_last_played : Option Int
deriving DecidableEq, Repr

/-- Normalized owned game. `playtimeHoursTenths` holds
`Math.round((playtime_forever / 60) * 10)`, i.e. hours in tenths; the source
stores the corresponding decimal (the final division by 10 is display-level). -/
structure SteamGame where
  appId : Int
  name : String
  playtimeMinutes : Int
  playtimeHoursTenths : Int
  playtime2Weeks : Int
  iconUrl : JsOpt String
  logoUrl : String
  lastPlayed : JsOpt Int
deriving DecidableEq, Repr

/-- `Math.round((m / 60) * 10)` for non-negative `m`: floor of `m/6 + 1/2`. -/
def roundTenthsOfHours (m : Int) : Int :=
  (m + 3) / 6

/-- The per-game mapping inside `fetchOwnedGames`. -/
def normalizeOwnedGame (g : SteamGameRaw) : SteamGame :=
  { appId := g.appid
    name := g.name
    playtimeMinutes := g.playtime_forever
    playtimeHoursTenths := roundTenthsOfHours g.playtime_forever
    playtime2Weeks := jsOrInt g.playtime_2weeks 0
    iconUrl :=
      match g.img_icon_url with
      | some s =>
        if s = "" then .null
        else .val ("https://media.steampowered.com/steamcommunity/public/images/apps/"
          ++ toString g.appid ++ "/" ++ s ++ ".jpg")
      | none => .null
    logoUrl := "https://steamcdn-a.akamaihd.net/steam/apps/" ++ toString g.appid ++ "/header.jpg"
    lastPlayed := jsOfOpt g.rtime_last_played }

/-- `.sort((a, b) => b.playtimeMinutes - a.playtimeMinutes)`: stable insertion
of a game into a list sorted by non-increasing playtime. -/
def insertGameDesc (g : SteamGame) : List SteamGame → List SteamGame
  | [] => [g]
  | h :: t =>
    if h.playtimeMinutes < g.playtimeMinutes then g :: h :: t
    else h :: insertGameDesc g t

/-- Stable sort by non-increasing `playtimeMinutes`. -/
def sortGamesDesc : List SteamGame → List SteamGame
  | [] => []
  | g :: t => insertGameDesc g (sortGamesDesc t)

/-- Root JSON shape of the owned-games response (`data.response`). -/
structure SteamOwnedRaw where
  game_count : Option Int
  games : Option (List SteamGameRaw)
deriving DecidableEq, Repr

/-- Result shape of `fetchOwnedGames`. -/
structure OwnedGamesOut where
  totalCount : Int
  games : List SteamGame
deriving DecidableEq, Repr

/-- `getMockOwnedGames` (steam.js); `lastPlayed` offsets from
`Math.floor(Date.now() / 1000)`. -/
def getMockOwnedGames (nowMs : Int) : OwnedGamesOut :=
  { totalCount := 247
    games :=
      [ { appId := 730, name := "Counter-Strike 2", playtimeMinutes := 18420,
          playtimeHoursTenths := 3070, playtime2Weeks := 840, iconUrl := .null,
          logoUrl := "https://steamcdn-a.akamaihd.net/steam/apps/730/header.jpg",
          lastPlayed := .val (nowMs / 1000 - 86400) },
        { appId := 1245620, name := "Elden Ring", playtimeMinutes := 9600,
          playtimeHoursTenths := 1600, playtime2Weeks := 420, iconUrl := .null,
          logoUrl := "https://steamcdn-a.akamaihd.net/steam/apps/1245620/header.jpg",
          lastPlayed := .val (nowMs / 1000 - 172800) },
        { appId := 570, name := "Dota 2", playtimeMinutes := 7200,
          playtimeHoursTenths := 1200, playtime2Weeks := 0, iconUrl := .null,
          logoUrl := "https://steamcdn-a.akamaihd.net/steam/apps/570/header.jpg",
          lastPlayed := .val (nowMs / 1000 - 604800) },
        { appId := 1172470, name := "Apex Legends", playtimeMinutes := 5400,
          playtimeHoursTenths := 900, playtime2Weeks := 180, iconUrl := .null,
          logoUrl := "https://steamcdn-a.akamaihd.net/steam/apps/1172470/header.jpg",
          lastPlayed := .val (nowMs / 1000 - 259200) },
        { appId := 292030, name := "The Witcher 3: Wild Hunt", playtimeMinutes := 4800,
          playtimeHoursTenths := 800, playtime2Weeks := 0, iconUrl := .null,
          logoUrl := "https://steamcdn-a.akamaihd.net/steam/apps/292030/header.jpg",
          lastPlayed := .val (nowMs / 1000 - 2592000) },
        { appId := 1086940, name := "Baldur's Gate 3", playtimeMinutes := 4200,
          playtimeHoursTenths := 700, playtime2Weeks := 300, iconUrl := .null,
          logoUrl := "https://steamcdn-a.akamaihd.net/steam/apps/1086940/header.jpg",
          lastPlayed := .val (nowMs / 1000 - 43200) },
        { appId := 413150, name := "Stardew Valley", playtimeMinutes := 3600,
          playtimeHoursTenths := 600, playtime2Weeks := 120, iconUrl := .null,
          logoUrl := "https://steamcdn-a.akamaihd.net/steam/apps/413150/header.jpg",
          lastPlayed := .val (nowMs / 1000 - 86400) },
        { appId := 1091500, name := "Cyberpunk 2077", playtimeMinutes := 3000,
          playtimeHoursTenths := 500, playtime2Weeks := 0, iconUrl := .null,
          logoUrl := "https://steamcdn-a.akamaihd.net/steam/apps/1091500/header.jpg",
          lastPlayed := .val (nowMs / 1000 - 1209600) } ] }

/-- `fetchOwnedGames` (steam.js): on success maps and sorts the games by
non-increasing playtime; `totalCount` is `game_count || games.length`; a
non-ok status is re-thrown (message fails the CORS classifier), a
network-level failure falls back to mock data. -/
def fetchOwnedGames (apiKey steamId : String) (nowMs : Int)
    (t : HttpResp (Option SteamOwnedRaw)) :
    FetchOutcome OwnedGamesOut × Nat :=
  if hasValidCredentials apiKey steamId = false then
    (.ok (getMockOwnedGames nowMs), 0)
  else
    match t with
    | .netFail => (.ok (getMockOwnedGames nowMs), 1)
    | .resp status body =>
      if statusOk status = false then
        (.thrown ("Steam API error: " ++ toString status), 1)
      else
        let games := (body.bind (·.games)).getD []
        (.ok { totalCount := jsOrInt (body.bind (·.game_count)) (games.length : Int)
               games := sortGamesDesc (games.map normalizeOwnedGame) }, 1)

/-- Upstream game object of `IPlayerService/GetRecentlyPlayedGames/v1`; the
endpoint supplies `playtime_2weeks` for every recently-played entry (the
source maps it without a default). -/
structure SteamRecentRaw where
  appid : Int
  name : String
  playtime_forever : Int
  playtime_2weeks : Int
  img_icon_url : Option String
deriving DecidableEq, Repr

/-- Normalized recently-played game. -/
structure SteamRecentGame where
  appId : Int
  name : String
  playtimeMinutes : Int
  playtimeHoursTenths : Int
  playtime2WeeksMinutes : Int
  playtime2WeeksHoursTenths : Int
  iconUrl : JsOpt String
  logoUrl : String
deriving DecidableEq, Repr

/-- The per-game mapping inside `fetchRecentGames`. -/
def normalizeRecentGame (g : SteamRecentRaw) : SteamRecentGame :=
  { appId := g.appid
    name := g.name
    playtimeMinutes := g.playtime_forever
    playtimeHoursTenths := roundTenthsOfHours g.playtime_forever
    playtime2WeeksMinutes := g.playtime_2weeks
    playtime2WeeksHoursTenths := roundTenthsOfHours g.playtime_2weeks
    iconUrl :=
      match g.img_icon_url with
      | some s =>
        if s = "" then .null
        else .val ("https://media.steampowered.com/steamcommunity/public/images/apps/"
          ++ toString g.appid ++ "/" ++ s ++ ".jpg")
      | none => .null
    logoUrl := "https://steamcdn-a.akamaihd.net/steam/apps/" ++ toString g.appid ++ "/header.jpg" }

/-- Root JSON shape of the recently-played response (`data.response`). -/
structure SteamRecentRawRoot where
  total_count : Option Int
  games : Option (List SteamRecentRaw)
deriving DecidableEq, Repr

/-- Result shape of `fetchRecentGames`. -/
structure RecentGamesOut where
  totalCount : Int
  games : List SteamRecentGame
deriving DecidableEq, Repr

/-- `getMockRecentGames` (steam.js); fully clock-independent. -/
def getMockRecentGames : RecentGamesOut :=
  { totalCount := 5
    games :=
      [ { appId := 1086940, name := "Baldur's Gate 3", playtimeMinutes := 4200,
          playtimeHoursTenths := 700, playtime2WeeksMinutes := 300,
          playtime2WeeksHoursTenths := 50, iconUrl := .null,
          logoUrl := "https://steamcdn-a.akamaihd.net/steam/apps/1086940/header.jpg" },
        { appId := 730, name := "Counter-Strike 2", playtimeMinutes := 18420,
          playtimeHoursTenths := 3070, playtime2WeeksMinutes := 840,
          playtime2WeeksHoursTenths := 140, iconUrl := .null,
          logoUrl := "https://steamcdn-a.akamaihd.net/steam/apps/730/header.jpg" },
        { appId := 1245620, name := "Elden Ring", playtimeMinutes := 9600,
          playtimeHoursTenths := 1600, playtime2WeeksMinutes := 420,
          playtime2WeeksHoursTenths := 70, iconUrl := .null,
          logoUrl := "https://steamcdn-a.akamaihd.net/steam/apps/1245620/header.jpg" },
        { appId := 1172470, name := "Apex Legends", playtimeMinutes := 5400,
          playtimeHoursTenths := 900, playtime2WeeksMinutes := 180,
          playtime2WeeksHoursTenths := 30, iconUrl := .null,
          logoUrl := "https://steamcdn-a.akamaihd.net/steam/apps/1172470/header.jpg" },
        { appId := 413150, name := "Stardew Valley", playtimeMinutes := 3600,
          playtimeHoursTenths := 600, playtime2WeeksMinutes := 120,
          playtime2WeeksHoursTenths := 20, iconUrl := .null,
          logoUrl := "https://steamcdn-a.akamaihd.net/steam/apps/413150/header.jpg" } ] }

/-- `fetchRecentGames` (steam.js): same failure discipline as
`fetchOwnedGames` (mock on missing credentials or network failure, re-thrown
status errors), no sorting. -/
def fetchRecentGames (apiKey steamId : String)
    (t : HttpResp (Option SteamRecentRawRoot)) :
    FetchOutcome RecentGamesOut × Nat :=
  if hasValidCredentials apiKey steamId = false then
    (.ok getMockRecentGames, 0)
  else
    match t with
    | .netFail => (.ok getMockRecentGames, 1)
    | .resp status body =>
      if statusOk status = false then
        (.thrown ("Steam API error: " ++ toString status), 1)
      else
        let games := (body.bind (·.games)).getD []
        (.ok { totalCount := jsOrInt (body.bind (·.total_count)) (games.length : Int)
               games := games.map normalizeRecentGame }, 1)

/-- Profile part of the Steam bundle: the player summary plus the level. -/
structure SteamProfileOut where
  summary : PlayerSummary
  level : Int
deriving DecidableEq, Repr

/-- Bundle returned by `fetchAllSteamData`. -/
structure SteamBundle where
  profile : SteamProfileOut
  ownedGames : OwnedGamesOut
  recentGames : RecentGamesOut
  isMockData : Bool
deriving DecidableEq, Repr

/-- `fetchAllSteamData` (steam.js): `Promise.all` over the four resource
fetches; if any constituent throws, the combined promise rejects with that
error; otherwise the bundle is assembled with
`isMockData = !hasValidCredentials()`. -/
def fetchAllSteamData (apiKey steamId : String) (nowMs : Int)
    (tSummary : HttpResp (Option (List SteamPlayerRaw)))
    (tLevel : HttpResp (Option Int))
    (tOwned : HttpResp (Option SteamOwnedRaw))
    (tRecent : HttpResp (Option SteamRecentRawRoot)) :
    FetchOutcome SteamBundle × Nat :=
  let (s, n1) := fetchPlayerSummary apiKey steamId nowMs tSummary
  let (lvl, n2) := fetchSteamLevel apiKey steamId tLevel
  let (o, n3) := fetchOwnedGames apiKey steamId nowMs tOwned
  let (r, n4) := fetchRecentGames apiKey steamId tRecent
  let n := n1 + n2 + n3 + n4
  match s, o, r with
  | .thrown m, _, _ => (.thrown m, n)
  | _, .thrown m, _ => (.thrown m, n)
  | _, _, .thrown m => (.thrown m, n)
  | .ok sv, .ok ov, .ok rv =>
    (.ok { profile := { summary := sv, level := lvl }
           ownedGames := ov
           recentGames := rv
           isMockData := !hasValidCredentials apiKey steamId }, n)

/-! ## Blizzard service (`src/services/blizzard.js`) -/

/-- Per-provider configuration read from `config.wow`. -/
structure WoWConfig where
  clientId : String
  clientSecret : String
  region : String
  realm : String
  characterName : String
deriving DecidableEq, Repr

/-- The module-level token cache (`accessToken`, `tokenExpiry`). -/
structure TokenCache where
  accessToken : Option String
  tokenExpiry : Int
deriving DecidableEq, Repr

/-- Initial module state: `accessToken = null`, `tokenExpiry = 0`. -/
def initialTokenCache : TokenCache := { accessToken := none, tokenExpiry := 0 }

/-- Parsed body of a successful `POST /oauth/token` exchange. -/
structure TokenBody where
  access_token : String
  expires_in : Int
deriving DecidableEq, Repr

/-- `getAccessToken` (blizzard.js). Returns the token (or `none`), the updated
cache, and the number of outbound token requests issued. A truthy cached token
that has not expired is returned with no request; missing credentials return
`none` with no request; a non-ok exchange or network failure is caught and
returns `none` leaving the cache untouched; on success the token is cached
with `tokenExpiry = now + (expires_in - 300) * 1000` (times in milliseconds,
`expires_in` in seconds, 300 s safety margin). -/
def getAccessToken (cfg : WoWConfig) (now : Int) (st : TokenCache)
    (t : HttpResp TokenBody) : Option String × TokenCache × Nat :=
  if tokenTruthy st.accessToken = true ∧ now < st.tokenExpiry then
    (st.accessToken, st, 0)
  else if cfg.clientId = "" ∨ cfg.clientSecret = "" then
    (none, st, 0)
  else
    match t with
    | .netFail => (none, st, 1)
    | .resp status body =>
      if statusOk status = true then
        (some body.access_token,
         { accessToken := some body.access_token
           tokenExpiry := now + (body.expires_in - 300) * 1000 }, 1)
      else (none, st, 1)

/-- `blizzardFetch` (blizzard.js): obtains a token (falsy token short-circuits
to `null` with no data request); a non-ok status or network failure is caught
and yields `null`. Returns the parsed body (or `none`), the updated token
cache, the token-request count, and the data-request count. -/
def blizzardFetch {β : Type} (cfg : WoWConfig) (now : Int) (st : TokenCache)
    (tokT : HttpResp TokenBody) (dataT : HttpResp β) :
    Option β × TokenCache × Nat × Nat :=
  match getAccessToken cfg now st tokT with
  | (tok, st1, tn) =>
    if tokenTruthy tok = false then (none, st1, tn, 0)
    else
      match dataT with
      | .netFail => (none, st1, tn, 1)
      | .resp status body =>
        if statusOk status = true then (some body, st1, tn, 1)
        else (none, st1, tn, 1)

/-- Upstream character-profile body (fields read by `fetchCharacterProfile`;
`Option` marks fields/paths that may be absent). -/
structure WoWProfileRaw where
  name : Option String
  realm_name : Option String
  class_name : Option String
  race_name : Option String
  level : Option Int
  faction_name : Option String
  equipped_item_level : Option Int
  average_item_level : Option Int
  guild_name : Option String
  last_login_timestamp : Option Int
deriving DecidableEq, Repr

/-- Normalized character profile. -/
structure WoWProfile where
  name : JsOpt String
  realm : String
  class_ : String
  race : String
  level : Int
  faction : String
  itemLevel : Int
  averageItemLevel : Int
  guild : JsOpt String
  lastLogin : JsOpt Int
deriving DecidableEq, Repr

/-- The field mapping in `fetchCharacterProfile`'s success branch:
`name` and `lastLogin` are copied verbatim (absent upstream fields stay
`undefined`); the remaining fields use `||` defaults
(`realm || wow.realm`, `class || 'Unknown'`, `level || 80`,
`itemLevel || 0`, `guild?.name || null`, …). -/
def normalizeWoWProfile (cfg : WoWConfig) (d : WoWProfileRaw) : WoWProfile :=
  { name := jsOfOpt d.name
    realm := jsOrStr d.realm_name cfg.realm
    class_ := jsOrStr d.class_name "Unknown"
    race := jsOrStr d.race_name "Unknown"
    level := jsOrInt d.level 80
    faction := jsOrStr d.faction_name "Unknown"
    itemLevel := jsOrInt d.equipped_item_level 0
    averageItemLevel := jsOrInt d.average_item_level 0
    guild :=
      match d.guild_name with
      | some s => if s = "" then .null else .val s
      | none => .null
    lastLogin := jsOfOpt d.last_login_timestamp }

/-- `getMockCharacterProfile` (blizzard.js); `lastLogin` is `Date.now()`. -/
def getMockCharacterProfile (cfg : WoWConfig) (now : Int) : WoWProfile :=
  { name := .val (jsOrStrS cfg.characterName "Hero")
    realm := jsOrStrS cfg.realm "Area-52"
    class_ := "Death Knight"
    race := "Blood Elf"
    level := 80
    faction := "Horde"
    itemLevel := 623
    averageItemLevel := 625
    guild := .val "Sample Guild"
    lastLogin := .val now }

/-- `fetchCharacterProfile` (blizzard.js): a truthy parsed body is normalized;
otherwise (no token, request failure, or null body) the mock profile is
returned. Also returns the updated token cache and the token/data request
counts. -/
def fetchCharacterProfile (cfg : WoWConfig) (now : Int) (st : TokenCache)
    (tokT : HttpResp TokenBody) (profT : HttpResp (Option WoWProfileRaw)) :
    WoWProfile × TokenCache × Nat × Nat :=
  match blizzardFetch cfg now st tokT profT with
  | (some (some d), st1, tn, dn) => (normalizeWoWProfile cfg d, st1, tn, dn)
  | (some none, st1, tn, dn) => (getMockCharacterProfile cfg now, st1, tn, dn)
  | (none, st1, tn, dn) => (getMockCharacterProfile cfg now, st1, tn, dn)

/-- RGB color object used by the Mythic+ rating. -/
structure ColorRGB where
  r : Int
  g : Int
  b : Int
deriving DecidableEq, Repr

/-- Upstream best-run object (`data.best_runs[i]`); `keystone_affixes` is
modelled as the list of affix names (the source maps `a => a.name`). -/
structure MythicRunRaw where
  dungeon_name : Option String
  keystone_level : Option Int
  is_completed_within_time : Option Bool
  duration : Option Int
  keystone_affixes : Option (List String)
deriving DecidableEq, Repr

/-- Upstream Mythic+ profile body. -/
structure MythicRaw where
  rating : Option Int
  color : Option ColorRGB
  best_runs : Option (List MythicRunRaw)
deriving DecidableEq, Repr

/-- Normalized best run. -/
structure MythicRun where
  dungeon : String
  level : Int
  completedInTime : Bool
  duration : Int
  affixes : List String
deriving DecidableEq, Repr

/-- Normalized Mythic+ profile. -/
structure MythicPlusOut where
  rating : Int
  ratingColor : ColorRGB
  bestRuns : List MythicRun
deriving DecidableEq, Repr

/-- The field mapping in `fetchMythicPlusProfile`'s success branch
(`rating || 0`, `color || {255,255,255}`, first five best runs). -/
def normalizeMythic (d : MythicRaw) : MythicPlusOut :=
  { rating := jsOrInt d.rating 0
    ratingColor := d.color.getD { r := 255, g := 255, b := 255 }
    bestRuns := ((d.best_runs.getD []).take 5).map fun run =>
      { dungeon := jsOrStr run.dungeon_name "Unknown"
        level := jsOrInt run.keystone_level 0
        completedInTime := run.is_completed_within_time.getD false
        duration := jsOrInt run.duration 0
        affixes := run.keystone_affixes.getD [] } }

/-- `getMockMythicPlusProfile` (blizzard.js); clock-independent. -/
def getMockMythicPlusProfile : MythicPlusOut :=
  { rating := 2847
    ratingColor := { r := 255, g := 128, b := 0 }
    bestRuns :=
      [ { dungeon := "The Stonevault", level := 12, completedInTime := true,
          duration := 1800000, affixes := ["Fortified", "Entangling"] },
        { dungeon := "Mists of Tirna Scithe", level := 11, completedInTime := true,
          duration := 1650000, affixes := ["Tyrannical", "Incorporeal"] },
        { dungeon := "The Dawnbreaker", level := 11, completedInTime := false,
          duration := 2100000, affixes := ["Fortified", "Afflicted"] },
        { dungeon := "Ara-Kara", level := 10, completedInTime := true,
          duration := 1500000, affixes := ["Tyrannical", "Spiteful"] },
        { dungeon := "City of Threads", level := 10, completedInTime := true,
          duration := 1700000, affixes := ["Fortified", "Bursting"] } ] }

/-- `fetchMythicPlusProfile` (blizzard.js). -/
def fetchMythicPlusProfile (cfg : WoWConfig) (now : Int) (st : TokenCache)
    (tokT : HttpResp TokenBody) (dataT : HttpResp (Option MythicRaw)) :
    MythicPlusOut × TokenCache × Nat × Nat :=
  match blizzardFetch cfg now st tokT dataT with
  | (some (some d), st1, tn, dn) => (normalizeMythic d, st1, tn, dn)
  | (some none, st1, tn, dn) => (getMockMythicPlusProfile, st1, tn, dn)
  | (none, st1, tn, dn) => (getMockMythicPlusProfile, st1, tn, dn)

/-- Upstream raid mode object. -/
structure RaidModeRaw where
  difficulty_name : Option String
  status_type : Option String
  completed_count : Option Int
  total_count : Option Int
deriving DecidableEq, Repr

/-- Upstream raid instance object. -/
structure RaidRaw where
  instance_name : Option String
  modes : Option (List RaidModeRaw)
deriving DecidableEq, Repr

/-- Upstream expansion object. -/
structure ExpansionRaw where
  expansion_name : Option String
  instances : Option (List RaidRaw)
deriving DecidableEq, Repr

/-- Upstream raids body. -/
structure RaidsRaw where
  expansions : Option (List ExpansionRaw)
deriving DecidableEq, Repr

/-- Normalized raid mode; `progress` is the `completed/total` string. -/
structure RaidMode where
  difficulty : String
  status : String
  progress : String
deriving DecidableEq, Repr

/-- Normalized raid. -/
structure RaidOut where
  name : String
  modes : List RaidMode
deriving DecidableEq, Repr

/-- Normalized raid progression. -/
structure RaidsOut where
  expansionName : String
  raids : List RaidOut
deriving DecidableEq, Repr

/-- `getMockRaidProgress` (blizzard.js); clock-independent. -/
def getMockRaidProgress : RaidsOut :=
  { expansionName := "The War Within"
    raids :=
      [ { name := "Nerub-ar Palace"
          modes :=
            [ { difficulty := "LFR", status := "COMPLETE", progress := "8/8" },
              { difficulty := "Normal", status := "COMPLETE", progress := "8/8" },
              { difficulty := "Heroic", status := "COMPLETE", progress := "8/8" },
              { difficulty := "Mythic", status := "IN_PROGRESS", progress := "5/8" } ] } ] }

/-- The normalization of the last expansion's instances in
`fetchRaidProgress`'s success branch. -/
def normalizeRaids (ce : ExpansionRaw) (insts : List RaidRaw) : RaidsOut :=
  { expansionName := jsOrStr ce.expansion_name "Current Expansion"
    raids := insts.map fun raid =>
      { name := jsOrStr raid.instance_name "Unknown Raid"
        modes := (raid.modes.getD []).map fun mode =>
          { difficulty := jsOrStr mode.difficulty_name "Unknown"
            status := jsOrStr mode.status_type "INCOMPLETE"
            progress := toString (jsOrInt mode.completed_count 0) ++ "/"
              ++ toString (jsOrInt mode.total_count 0) } } }

/-- `fetchRaidProgress` (blizzard.js): picks the last expansion of
`data.expansions || []`; falls back to the mock when the body, the last
expansion, or its `instances` field is missing. -/
def fetchRaidProgress (cfg : WoWConfig) (now : Int) (st : TokenCache)
    (tokT : HttpResp TokenBody) (dataT : HttpResp (Option RaidsRaw)) :
    RaidsOut × TokenCache × Nat × Nat :=
  match blizzardFetch cfg now st tokT dataT with
  | (some (some d), st1, tn, dn) =>
    (match (d.expansions.getD []).getLast? with
     | some ce =>
       match ce.instances with
       | some insts => normalizeRaids ce insts
       | none => getMockRaidProgress
     | none => getMockRaidProgress, st1, tn, dn)
  | (some none, st1, tn, dn) => (getMockRaidProgress, st1, tn, dn)
  | (none, st1, tn, dn) => (getMockRaidProgress, st1, tn, dn)

/-- Per-endpoint transports used by one `fetchAllWoWData` call (each endpoint
responds the same way every time it is hit during the call). -/
structure WoWTransports where
  token : HttpResp TokenBody
  profile : HttpResp (Option WoWProfileRaw)
  mythic : HttpResp (Option MythicRaw)
  raids : HttpResp (Option RaidsRaw)

/-- Bundle returned by `fetchAllWoWData`. -/
structure WoWBundle where
  profile : WoWProfile
  mythicPlus : MythicPlusOut
  raids : RaidsOut
  isMockData : Bool
deriving DecidableEq, Repr

/-- `fetchAllWoWData` (blizzard.js): `Promise.all` over the three resource
fetches (modelled sequentially; all three share the module token cache), then
`isMockData: !accessToken` reads the cache state left after the fetches.
Returns the bundle, the final cache, and the token/data request counts. -/
def fetchAllWoWData (cfg : WoWConfig) (now : Int) (st : TokenCache)
    (t : WoWTransports) : WoWBundle × TokenCache × Nat × Nat :=
  match fetchCharacterProfile cfg now st t.token t.profile with
  | (p, st1, tn1, dn1) =>
    match fetchMythicPlusProfile cfg now st1 t.token t.mythic with
    | (m, st2, tn2, dn2) =>
      match fetchRaidProgress cfg now st2 t.token t.raids with
      | (r, st3, tn3, dn3) =>
        ({ profile := p, mythicPlus := m, raids := r
           isMockData := !tokenTruthy st3.accessToken }, st3,
         tn1 + tn2 + tn3, dn1 + dn2 + dn3)

/-! ## Path of Exile service (second half of the services module) -/

/-- Per-provider configuration read from `config.poe2`. -/
structure POE2Config where
  accountName : String
  realm : String
deriving DecidableEq, Repr

/-- A POE2 character record (shape shared by live and mock data). -/
structure POECharacter where
  name : String
  class_ : String
  level : Int
  league : String
  experience : Int
  lastActive : Int
deriving DecidableEq, Repr

/-- Result of `fetchCharacters`: the character list plus the provenance flag. -/
structure CharactersOut where
  characters : List POECharacter
  isMockData : Bool
deriving DecidableEq, Repr

/-- `getMockCharacters` (POE service); `lastActive` offsets from `Date.now()`. -/
def getMockCharacters (nowMs : Int) : CharactersOut :=
  { characters :=
      [ { name := "ShadowBlade", class_ := "Mercenary", level := 92,
          league := "Settlers", experience := 2847593847, lastActive := nowMs - 3600000 },
        { name := "FrostWitch", class_ := "Sorceress", level := 88,
          league := "Settlers", experience := 1293847562, lastActive := nowMs - 86400000 },
        { name := "BoneWarrior", class_ := "Warrior", level := 85,
          league := "Settlers", experience := 983746251, lastActive := nowMs - 172800000 },
        { name := "StormMonk", class_ := "Monk", level := 78,
          league := "Standard", experience := 487293651, lastActive := nowMs - 604800000 },
        { name := "VoidHunter", class_ := "Ranger", level := 71,
          league := "Settlers", experience := 287463912, lastActive := nowMs - 259200000 } ]
    isMockData := true }

/-- `fetchCharacters` (POE service). Every failure path returns the mock
dataset: 401/403 explicitly, other non-ok statuses via the throw that the
function's own catch block intercepts, and network failures via the same
catch; the function never raises. The body is `data.characters`. -/
def fetchCharacters (t : HttpResp (Option (List POECharacter))) (nowMs : Int) :
    CharactersOut × Nat :=
  match t with
  | .netFail => (getMockCharacters nowMs, 1)
  | .resp status body =>
    if statusOk status = true then
      ({ characters := body.getD [], isMockData := false }, 1)
    else (getMockCharacters nowMs, 1)

/-- A league rule. -/
structure POERule where
  id : String
  name : String
deriving DecidableEq, Repr

/-- A league record (shape shared by live and mock data). -/
structure POELeague where
  id : String
  name : String
  realm : String
  startAt : Option String
  endAt : Option String
  rules : List POERule
deriving DecidableEq, Repr

/-- Result of `fetchLeagues`. -/
structure LeaguesOut where
  leagues : List POELeague
  isMockData : Bool
deriving DecidableEq, Repr

/-- `getMockLeagues` (POE service); clock-independent. -/
def getMockLeagues : LeaguesOut :=
  { leagues :=
      [ { id := "Settlers", name := "Settlers", realm := "pc",
          startAt := some "2024-12-06T20:00:00Z", endAt := none,
          rules := [{ id := "settlers", name := "Settlers" }] },
        { id := "Standard", name := "Standard", realm := "pc",
          startAt := none, endAt := none, rules := [] },
        { id := "Hardcore", name := "Hardcore", realm := "pc",
          startAt := none, endAt := none,
          rules := [{ id := "Hardcore", name := "Hardcore" }] } ]
    isMockData := true }

/-- `fetchLeagues` (POE service): any failure (non-ok status via throw/catch,
or network failure) returns the mock dataset; the body is `data.leagues`. -/
def fetchLeagues (t : HttpResp (Option (List POELeague))) : LeaguesOut × Nat :=
  match t with
  | .netFail => (getMockLeagues, 1)
  | .resp status body =>
    if statusOk status = true then
      ({ leagues := body.getD [], isMockData := false }, 1)
    else (getMockLeagues, 1)

/-- Upstream profile body of `fetchAccountProfile`. -/
structure POEProfileRaw where
  name : Option String
  realm : Option String
deriving DecidableEq, Repr

/-- Result of `fetchAccountProfile`. -/
structure POEProfileOut where
  name : String
  realm : String
  isMockData : Bool
deriving DecidableEq, Repr

/-- `fetchAccountProfile` (POE service): on success, `name || accountName`
and `realm || realm` from config; any failure returns the config identity
tagged as mock. -/
def fetchAccountProfile (cfg : POE2Config) (t : HttpResp POEProfileRaw) :
    POEProfileOut × Nat :=
  match t with
  | .netFail => ({ name := cfg.accountName, realm := cfg.realm, isMockData := true }, 1)
  | .resp status body =>
    if statusOk status = true then
      ({ name := jsOrStr body.name cfg.accountName
         realm := jsOrStr body.realm cfg.realm
         isMockData := false }, 1)
    else ({ name := cfg.accountName, realm := cfg.realm, isMockData := true }, 1)

/-- Result of `getCurrentLeague`: either a league from the list or the
hard-coded `{ name: 'Settlers', type: 'Challenge League' }` object returned
for an empty list. -/
inductive CurrentLeague where
  | league : POELeague → CurrentLeague
  | defaultSettlers : CurrentLeague
deriving DecidableEq, Repr

/-- `getCurrentLeague` (POE service): first league whose id contains none of
`Standard`/`Hardcore`/`SSF` and which has a non-empty rules list; otherwise
the first league; the default object for an empty list. -/
def getCurrentLeague (leagues : List POELeague) : CurrentLeague :=
  match leagues with
  | [] => .defaultSettlers
  | h :: _ =>
    match leagues.find? (fun l =>
      !(strIncludes l.id "Standard") && !(strIncludes l.id "Hardcore")
        && !(strIncludes l.id "SSF") && l.rules.length > 0) with
    | some l => .league l
    | none => .league h

/-- Bundle returned by `fetchAllPOE2Data`. -/
structure POE2Bundle where
  account : POEProfileOut
  characters : List POECharacter
  leagues : List POELeague
  currentLeague : CurrentLeague
  isMockData : Bool
deriving DecidableEq, Repr

/-- `fetchAllPOE2Data` (POE service): `Promise.all` over the three fetches;
`isMockData` is the disjunction of the three constituent provenance flags. -/
def fetchAllPOE2Data (cfg : POE2Config) (nowMs : Int)
    (tc : HttpResp (Option (List POECharacter)))
    (tl : HttpResp (Option (List POELeague)))
    (tp : HttpResp POEProfileRaw) : POE2Bundle × Nat :=
  match fetchCharacters tc nowMs, fetchLeagues tl, fetchAccountProfile cfg tp with
  | (c, n1), (l, n2), (p, n3) =>
    ({ account := p
       characters := c.characters
       leagues := l.leagues
       currentLeague := getCurrentLeague l.leagues
       isMockData := c.isMockData || l.isMockData || p.isMockData }, n1 + n2 + n3)

/-! ## NFT service (Reservoir API) -/

/-- The all-zero placeholder wallet address. -/
def zeroAddress : String := "0x0000000000000000000000000000000000000000"

/-- Upstream Reservoir token entry (the `item.token` paths the service reads;
`Option` marks paths that may be absent). -/
structure ReservoirTokenRaw where
  contract : Option String
  collection_name : Option String
  collection_slug : Option String
  tokenId : Option String
  name : Option String
  description : Option String
  image : Option String
  imageSmall : Option String
deriving DecidableEq, Repr

/-- Normalized NFT image URLs. -/
structure NFTImage where
  cachedUrl : JsOpt String
  thumbnailUrl : JsOpt String
  originalUrl : JsOpt String
deriving DecidableEq, Repr

/-- Normalized NFT object (the `raw` passthrough field is omitted). -/
structure NFTOut where
  contractAddress : JsOpt String
  contractName : JsOpt String
  tokenId : JsOpt String
  name : String
  description : JsOpt String
  image : NFTImage
  collectionName : JsOpt String
  collectionSlug : JsOpt String
deriving DecidableEq, Repr

/-- JavaScript `a || b` on two possibly-undefined strings
(`undefined`/`null`/`""` falsy). -/
def jsOrJsStr (a b : JsOpt String) : JsOpt String :=
  match a with
  | .val s => if s = "" then b else a
  | _ => b

/-- The per-item mapping inside `fetchNFTsForWallet`:
`name` is `token.name || '#' + token.tokenId` (template literals render an
absent id as the string `undefined`); `cachedUrl` is
`imageSmall || image`. -/
def normalizeReservoirToken (t : ReservoirTokenRaw) : NFTOut :=
  { contractAddress := jsOfOpt t.contract
    contractName := jsOfOpt t.collection_name
    tokenId := jsOfOpt t.tokenId
    name :=
      match t.name with
      | some s => if s = "" then "#" ++ t.tokenId.getD "undefined" else s
      | none => "#" ++ t.tokenId.getD "undefined"
    description := jsOfOpt t.description
    image :=
      { cachedUrl := jsOrJsStr (jsOfOpt t.imageSmall) (jsOfOpt t.image)
        thumbnailUrl := jsOfOpt t.imageSmall
        originalUrl := jsOfOpt t.image }
    collectionName := jsOfOpt t.collection_name
    collectionSlug := jsOfOpt t.collection_slug }

/-- Body of a Reservoir page response. -/
structure ReservoirBody where
  tokens : Option (List ReservoirTokenRaw)
  continuation : Option String
deriving DecidableEq, Repr

/-- `fetchNFTsForWallet` (NFT service). The effective address is
`walletAddress || config.wallet.address`; a missing or all-zero address
throws the configuration error before any request; a non-ok response throws
`Reservoir API error: <status>`; a network failure propagates (the function
has no catch). On success the tokens are normalized and the continuation is
`data.continuation || null`. Returns the outcome and the request count. -/
def fetchNFTsForWallet (walletAddress : Option String) (cfgAddress : String)
    (t : HttpResp ReservoirBody) :
    Except String (List NFTOut × Option String) × Nat :=
  let address :=
    match walletAddress with
    | some s => if s = "" then cfgAddress else s
    | none => cfgAddress
  if address = "" ∨ address = zeroAddress then
    (.error "Wallet address is not configured. Please add your wallet address to config.js", 0)
  else
    match t with
    | .netFail => (.error "NetworkError when attempting to fetch resource", 1)
    | .resp status body =>
      if statusOk status = false then
        (.error ("Reservoir API error: " ++ toString status), 1)
      else
        (.ok ((body.tokens.getD []).map normalizeReservoirToken,
              match body.continuation with
              | some s => if s = "" then none else some s
              | none => none), 1)

/-- `fetchAllNFTs` (NFT service), abstracted over the page stream: `pages` is
the sequence of `(nfts, continuation)` results that successive successful
`fetchNFTsForWallet` calls return. The do/while loop accumulates each page,
breaks as soon as the accumulated count reaches `maxNFTs`, otherwise continues
while a continuation is present, and finally slices to `maxNFTs`. Returns the
collected items and the number of page requests issued. -/
def fetchAllNFTs {α : Type} (pages : List (List α × Option String))
    (maxNFTs : Nat) (acc : List α) : List α × Nat :=
  match pages with
  | [] => (acc.take maxNFTs, 0)
  | (items, cont) :: rest =>
    let acc2 := acc ++ items
    if maxNFTs ≤ acc2.length then (acc2.take maxNFTs, 1)
    else
      match cont with
      | none => (acc2.take maxNFTs, 1)
      | some _ =>
        match fetchAllNFTs rest maxNFTs acc2 with
        | (r, n) => (r, n + 1)

/-- The 237-item paged source of the pagination scenario: four full pages of
50 items with continuation tokens, then a final page of 37 with none. -/
def pages237 : List (List Nat × Option String) :=
  [ (List.range 50, some "c1"),
    ((List.range 50).map (· + 50), some "c2"),
    ((List.range 50).map (· + 100), some "c3"),
    ((List.range 50).map (· + 150), some "c4"),
    ((List.range 37).map (· + 200), none) ]

/-- Clock-field erasure for a WoW profile (drops `lastLogin`). -/
def WoWProfile.eraseClock (p : WoWProfile) : WoWProfile :=
  { p with lastLogin := .undef }

/-- Clock-field erasure for a Steam player summary (drops `lastLogoff`). -/
def PlayerSummary.eraseClock (p : PlayerSummary) : PlayerSummary :=
  { p with lastLogoff := .undef }

/-- Clock-field erasure for an owned game (drops `lastPlayed`). -/
def SteamGame.eraseClock (g : SteamGame) : SteamGame :=
  { g with lastPlayed := .undef }

/-- Clock-field erasure for the owned-games dataset. -/
def OwnedGamesOut.eraseClock (r : OwnedGamesOut) : OwnedGamesOut :=
  { r with games := r.games.map SteamGame.eraseClock }

/-- Clock-field erasure for a POE character (drops `lastActive`). -/
def POECharacter.eraseClock (c : POECharacter) : POECharacter :=
  { c with lastActive := 0 }

/-- Clock-field erasure for the POE characters dataset. -/
def CharactersOut.eraseClock (r : CharactersOut) : CharactersOut :=
  { r with characters := r.characters.map POECharacter.eraseClock }

/-! ## Helper lemmas -/

theorem mem_insertGameDesc {x g : SteamGame} {l : List SteamGame} :
    x ∈ insertGameDesc g l ↔ x = g ∨ x ∈ l := by
  induction l with
  | nil => simp [insertGameDesc]
  | cons h t ih =>
    by_cases hc : h.playtimeMinutes < g.playtimeMinutes
    · simp only [insertGameDesc, if_pos hc, List.mem_cons]
    · simp only [insertGameDesc, if_neg hc, List.mem_cons, ih]
      tauto

theorem pairwise_insertGameDesc {g : SteamGame} {l : List SteamGame}
    (h : l.Pairwise fun a b => b.playtimeMinutes ≤ a.playtimeMinutes) :
    (insertGameDesc g l).Pairwise fun a b => b.playtimeMinutes ≤ a.playtimeMinutes := by
  induction l with
  | nil => simp [insertGameDesc]
  | cons hd t ih =>
    rcases List.pairwise_cons.1 h with ⟨hhd, ht⟩
    by_cases hc : hd.playtimeMinutes < g.playtimeMinutes
    · rw [insertGameDesc, if_pos hc]
      refine List.pairwise_cons.2 ⟨?_, h⟩
      intro x hx
      rcases List.mem_cons.1 hx with rfl | hx'
      · exact le_of_lt hc
      · exact le_trans (hhd x hx') (le_of_lt hc)
    · rw [insertGameDesc, if_neg hc]
      refine List.pairwise_cons.2 ⟨?_, ih ht⟩
      intro x hx
      rcases mem_insertGameDesc.1 hx with rfl | hx'
      · exact le_of_not_lt hc
      · exact hhd x hx'

theorem pairwise_sortGamesDesc (l : List SteamGame) :
    (sortGamesDesc l).Pairwise fun a b => b.playtimeMinutes ≤ a.playtimeMinutes := by
  induction l with
  | nil => simp [sortGamesDesc]
  | cons g t ih => exact pairwise_insertGameDesc ih

theorem mem_sortGamesDesc {x : SteamGame} {l : List SteamGame} :
    x ∈ sortGamesDesc l ↔ x ∈ l := by
  induction l with
  | nil => simp [sortGamesDesc]
  | cons g t ih => simp [sortGamesDesc, mem_insertGameDesc, ih]

theorem fetchAllNFTs_length_le {α : Type} (pages : List (List α × Option String))
    (maxNFTs : Nat) (acc : List α) :
    (fetchAllNFTs pages maxNFTs acc).1.length ≤ maxNFTs := by
  induction pages generalizing acc with
  | nil => simp [fetchAllNFTs]
  | cons pg rest ih =>
    rcases pg with ⟨items, cont⟩
    simp only [fetchAllNFTs]
    split
    · simp
    · cases cont with
      | none => simp
      | some c =>
        have h2 := ih (acc ++ items)
        rcases hrec : fetchAllNFTs rest maxNFTs (acc ++ items) with ⟨r, n⟩
        rw [hrec] at h2
        simpa [hrec] using h2

theorem normalizeOwnedGame_icon_set (g : SteamGameRaw) :
    (normalizeOwnedGame g).iconUrl.isSet = true := by
  unfold normalizeOwnedGame
  cases g.img_icon_url with
  | none => rfl
  | some s =>
    by_cases hs : s = "" <;> simp [hs, JsOpt.isSet]

/-! ## Claim theorems -/

/-- C10: on the live path (valid credentials, ok status), the games sequence
returned by `fetchOwnedGames` is sorted in non-increasing order of
`playtimeMinutes`, for every upstream games list. -/
theorem fetchOwnedGames_sorted_desc (apiKey steamId : String) (nowMs : Int)
    (status : Nat) (body : Option SteamOwnedRaw)
    (hc : hasValidCredentials apiKey steamId = true)
    (hs : statusOk status = true) :
    ∃ r : OwnedGamesOut,
      (fetchOwnedGames apiKey steamId nowMs (.resp status body)).1 = .ok r ∧
      r.games.Pairwise fun a b => b.playtimeMinutes ≤ a.playtimeMinutes := by
  have heq : (fetchOwnedGames apiKey steamId nowMs (.resp status body)).1
      = .ok { totalCount := jsOrInt (body.bind (·.game_count))
                (((body.bind (·.games)).getD []).length : Int)
              games := sortGamesDesc (((body.bind (·.games)).getD []).map normalizeOwnedGame) } := by
    simp [fetchOwnedGames, hc, hs]
  exact ⟨_, heq, pairwise_sortGamesDesc _⟩

/-- Witness for C10 at a concrete unsorted upstream list. -/
theorem fetchOwnedGames_sorted_desc_witness :
    ∃ r : OwnedGamesOut,
      (fetchOwnedGames "k" "76561198123456789" 0
        (.resp 200 (some
          { game_count := some 2
            games := some
              [ { appid := 1, name := "A", playtime_forever := 5,
                  playtime_2weeks := none, img_icon_url := none, rtime_last_played := none },
                { appid := 2, name := "B", playtime_forever := 9,
                  playtime_2weeks := none, img_icon_url := none, rtime_last_played := none } ] }))).1
        = .ok r ∧
      r.games.Pairwise fun a b => b.playtimeMinutes ≤ a.playtimeMinutes :=
  fetchOwnedGames_sorted_desc "k" "76561198123456789" 0 200 _ (by decide) (by decide)

/-- C1 counterexample: with valid credentials, an HTTP 401 response makes the
Steam `fetchPlayerSummary` adapter raise (`Steam API error: 401` fails the
CORS/NetworkError/TypeError classifier of its catch block and is re-thrown)
instead of returning the fallback dataset, refuting "every adapter fetch
operation … never raises past the adapter's boundary" for the 401/403 mode. -/
theorem fetchPlayerSummary_http401_raises :
    fetchPlayerSummary "k" "76561198123456789" 0 (.resp 401 none)
      = (.thrown ("Steam API error: " ++ toString 401), 1) := by rfl

/-- C1 (amended): the POE adapter degrades every expected failure mode
(network failure, 401/403, and any other non-ok status) to its tagged mock
dataset and never raises; the Steam adapter degrades missing credentials and
network failures to mock data but re-raises HTTP status errors; the NFT
adapter raises on a non-ok status (it has no fallback dataset). -/
theorem c1_fallback_boundaries :
    (∀ nowMs status body, statusOk status = false →
       fetchCharacters (.resp status body) nowMs = (getMockCharacters nowMs, 1))
    ∧ (∀ nowMs, fetchCharacters .netFail nowMs = (getMockCharacters nowMs, 1))
    ∧ (∀ apiKey steamId nowMs t, hasValidCredentials apiKey steamId = false →
       fetchPlayerSummary apiKey steamId nowMs t = (.ok (getMockPlayerSummary nowMs), 0))
    ∧ (∀ apiKey steamId nowMs, hasValidCredentials apiKey steamId = true →
       fetchPlayerSummary apiKey steamId nowMs .netFail = (.ok (getMockPlayerSummary nowMs), 1))
    ∧ (∀ apiKey steamId nowMs status body, hasValidCredentials apiKey steamId = true →
       statusOk status = false →
       fetchPlayerSummary apiKey steamId nowMs (.resp status body)
         = (.thrown ("Steam API error: " ++ toString status), 1))
    ∧ (∀ a cfgA status body, a ≠ "" → a ≠ zeroAddress → statusOk status = false →
       fetchNFTsForWallet (some a) cfgA (.resp status body)
         = (.error ("Reservoir API error: " ++ toString status), 1)) := by
  refine ⟨?_, ?_, ?_, ?_, ?_, ?_⟩
  · intro nowMs status body h
    simp [fetchCharacters, h]
  · intro nowMs
    rfl
  · intro apiKey steamId nowMs t h
    simp [fetchPlayerSummary, h]
  · intro apiKey steamId nowMs h
    simp [fetchPlayerSummary, h]
  · intro apiKey steamId nowMs status body h hs
    simp [fetchPlayerSummary, h, hs]
  · intro a cfgA status body ha hz hs
    simp [fetchNFTsForWallet, ha, hz, hs]

/-- Witness for C1 (amended) at concrete inputs for each conjunct. -/
theorem c1_fallback_boundaries_witness :
    fetchCharacters (.resp 403 none) 0 = (getMockCharacters 0, 1)
    ∧ fetchPlayerSummary "" "" 0 .netFail = (.ok (getMockPlayerSummary 0), 0)
    ∧ fetchPlayerSummary "k" "76561198123456789" 0 .netFail
        = (.ok (getMockPlayerSummary 0), 1)
    ∧ fetchNFTsForWallet (some "0xabc") "" (.resp 500 { tokens := none, continuation := none })
        = (.error ("Reservoir API error: " ++ toString 500), 1) :=
  ⟨c1_fallback_boundaries.1 0 403 none (by decide),
   c1_fallback_boundaries.2.2.1 "" "" 0 .netFail (by decide),
   c1_fallback_boundaries.2.2.2.1 "k" "76561198123456789" 0 (by decide),
   c1_fallback_boundaries.2.2.2.2.2 "0xabc" "" 500 { tokens := none, continuation := none }
     (by decide) (by decide) (by decide)⟩

set_option maxRecDepth 10000 in
/-- C4: the pagination collector never returns more than `maxNFTs` items, and
on the 237-item source with page size 50 and `maxNFTs = 200` it returns
exactly 200 items using exactly 4 page requests (the fourth page reaches the
cutoff and the loop breaks there, truncating via the final slice). -/
theorem fetchAllNFTs_bounded_and_scenario :
    (∀ (α : Type) (pages : List (List α × Option String)) (maxNFTs : Nat),
       (fetchAllNFTs pages maxNFTs []).1.length ≤ maxNFTs)
    ∧ (fetchAllNFTs pages237 200 []).1.length = 200
    ∧ (fetchAllNFTs pages237 200 []).2 = 4 := by
  refine ⟨fun α pages maxNFTs => fetchAllNFTs_length_le pages maxNFTs [], ?_, ?_⟩
  · decide
  · decide

/-- C2: with credentials configured and a successful exchange, a first
`getAccessToken` call issues one token request, returns the token, and caches
`tokenExpiry = issueTime + (expires_in - 300) * 1000` (the server-reported
lifetime minus the 300-second safety margin, in milliseconds); a second call
at any time inside that validity window issues zero requests — one outbound
request in total — and returns the same token, whatever the transport would
answer. -/
theorem getAccessToken_single_request_caching (cfg : WoWConfig) (tok : String)
    (expin t1 t2 : Int) (t' : HttpResp TokenBody)
    (hid : cfg.clientId ≠ "") (hsec : cfg.clientSecret ≠ "") (htok : tok ≠ "")
    (hwin : t2 < t1 + (expin - 300) * 1000) :
    getAccessToken cfg t1 initialTokenCache
        (.resp 200 { access_token := tok, expires_in := expin })
      = (some tok, { accessToken := some tok
                     tokenExpiry := t1 + (expin - 300) * 1000 }, 1)
    ∧ getAccessToken cfg t2
        { accessToken := some tok, tokenExpiry := t1 + (expin - 300) * 1000 } t'
      = (some tok, { accessToken := some tok
                     tokenExpiry := t1 + (expin - 300) * 1000 }, 0) := by
  constructor
  · simp [getAccessToken, initialTokenCache, tokenTruthy, hid, hsec, statusOk]
  · simp [getAccessToken, tokenTruthy, htok, hwin]

/-- Witness for C2: first call at time 0 with a 3600-second token, second call
at time 1000 against a transport that would fail. -/
theorem getAccessToken_single_request_caching_witness :
    getAccessToken { clientId := "id", clientSecret := "secret", region := "us",
                     realm := "area-52", characterName := "toon" } 0 initialTokenCache
        (.resp 200 { access_token := "TOK", expires_in := 3600 })
      = (some "TOK", { accessToken := some "TOK"
                       tokenExpiry := 0 + (3600 - 300) * 1000 }, 1)
    ∧ getAccessToken { clientId := "id", clientSecret := "secret", region := "us",
                       realm := "area-52", characterName := "toon" } 1000
        { accessToken := some "TOK", tokenExpiry := 0 + (3600 - 300) * 1000 } .netFail
      = (some "TOK", { accessToken := some "TOK"
                       tokenExpiry := 0 + (3600 - 300) * 1000 }, 0) :=
  getAccessToken_single_request_caching
    { clientId := "id", clientSecret := "secret", region := "us",
      realm := "area-52", characterName := "toon" } "TOK" 3600 0 1000 .netFail
    (by decide) (by decide) (by decide) (by decide)

/-- C3 counterexample: with no wallet address configured, `fetchNFTsForWallet`
issues zero HTTP requests but raises a configuration error rather than
returning a fallback dataset, refuting "immediately returns the fallback
dataset" for the NFT resource (the service has no NFT fallback data). -/
theorem fetchNFTsForWallet_missing_wallet_raises :
    fetchNFTsForWallet none "" .netFail
      = (.error "Wallet address is not configured. Please add your wallet address to config.js",
         0) := by rfl

/-- C3 (amended): whenever the required credential or identifier is absent,
zero HTTP requests are issued for that resource; Steam and Blizzard
immediately return their fallback data, while the NFT fetch immediately
raises a configuration error instead (both for a missing and for the all-zero
wallet address). -/
theorem c3_config_missing_zero_requests :
    (∀ apiKey steamId nowMs t, hasValidCredentials apiKey steamId = false →
       fetchPlayerSummary apiKey steamId nowMs t = (.ok (getMockPlayerSummary nowMs), 0))
    ∧ (∀ apiKey steamId nowMs t, hasValidCredentials apiKey steamId = false →
       fetchOwnedGames apiKey steamId nowMs t = (.ok (getMockOwnedGames nowMs), 0))
    ∧ (∀ apiKey steamId t, hasValidCredentials apiKey steamId = false →
       fetchSteamLevel apiKey steamId t = (getMockSteamLevel, 0))
    ∧ (∀ cfg now tokT, cfg.clientId = "" ∨ cfg.clientSecret = "" →
       getAccessToken cfg now initialTokenCache tokT = (none, initialTokenCache, 0))
    ∧ (∀ cfg now tokT profT, cfg.clientId = "" ∨ cfg.clientSecret = "" →
       fetchCharacterProfile cfg now initialTokenCache tokT profT
         = (getMockCharacterProfile cfg now, initialTokenCache, 0, 0))
    ∧ (∀ t, fetchNFTsForWallet none "" t
         = (.error "Wallet address is not configured. Please add your wallet address to config.js", 0))
    ∧ (∀ cfgA t, fetchNFTsForWallet (some zeroAddress) cfgA t
         = (.error "Wallet address is not configured. Please add your wallet address to config.js", 0)) := by
  refine ⟨?_, ?_, ?_, ?_, ?_, ?_, ?_⟩
  · intro apiKey steamId nowMs t h
    simp [fetchPlayerSummary, h]
  · intro apiKey steamId nowMs t h
    simp [fetchOwnedGames, h]
  · intro apiKey steamId t h
    simp [fetchSteamLevel, h]
  · intro cfg now tokT h
    simp [getAccessToken, initialTokenCache, tokenTruthy, h]
  · intro cfg now tokT profT h
    simp [fetchCharacterProfile, blizzardFetch, getAccessToken, initialTokenCache,
      tokenTruthy, h]
  · intro t
    rfl
  · intro cfgA t
    simp [fetchNFTsForWallet, zeroAddress]

/-- Witness for C3 (amended): placeholder Steam id, missing Blizzard secret,
and both missing-wallet cases, at concrete inputs. -/
theorem c3_config_missing_zero_requests_witness :
    fetchPlayerSummary "k" "76561190000000000" 0 .netFail
      = (.ok (getMockPlayerSummary 0), 0)
    ∧ fetchOwnedGames "" "76561198123456789" 0 .netFail
      = (.ok (getMockOwnedGames 0), 0)
    ∧ fetchSteamLevel "" "" .netFail = (getMockSteamLevel, 0)
    ∧ getAccessToken { clientId := "id", clientSecret := "", region := "us",
                       realm := "area-52", characterName := "toon" } 0
        initialTokenCache .netFail = (none, initialTokenCache, 0)
    ∧ fetchCharacterProfile { clientId := "id", clientSecret := "", region := "us",
                              realm := "area-52", characterName := "toon" } 0
        initialTokenCache .netFail .netFail
      = (getMockCharacterProfile { clientId := "id", clientSecret := "", region := "us",
                                   realm := "area-52", characterName := "toon" } 0,
         initialTokenCache, 0, 0)
    ∧ fetchNFTsForWallet none ""
        (.resp 200 { tokens := none, continuation := none })
      = (.error "Wallet address is not configured. Please add your wallet address to config.js", 0)
    ∧ fetchNFTsForWallet (some zeroAddress) "0xabc"
        (.resp 200 { tokens := none, continuation := none })
      = (.error "Wallet address is not configured. Please add your wallet address to config.js", 0) :=
  ⟨c3_config_missing_zero_requests.1 "k" "76561190000000000" 0 .netFail (by decide),
   c3_config_missing_zero_requests.2.1 "" "76561198123456789" 0 .netFail (by decide),
   c3_config_missing_zero_requests.2.2.1 "" "" .netFail (by decide),
   c3_config_missing_zero_requests.2.2.2.1 _ 0 .netFail (Or.inr (by decide)),
   c3_config_missing_zero_requests.2.2.2.2.1 _ 0 .netFail .netFail (Or.inr (by decide)),
   c3_config_missing_zero_requests.2.2.2.2.2.1 _,
   c3_config_missing_zero_requests.2.2.2.2.2.2 "0xabc" _⟩

/-- C6: with credentials configured, a token exchange answering HTTP 401 makes
`getAccessToken` return `none` with one token request issued and the cache
left empty (unchanged initial state), and the character profile fetch then
returns the fallback profile whose class is `Death Knight`, issuing no data
request; token requests happen only inside `getAccessToken`, so none occurs
between the failed call and the next one. -/
theorem getAccessToken_401_profile_fallback (cfg : WoWConfig) (now : Int)
    (body : TokenBody) (profT : HttpResp (Option WoWProfileRaw))
    (hid : cfg.clientId ≠ "") (hsec : cfg.clientSecret ≠ "") :
    getAccessToken cfg now initialTokenCache (.resp 401 body)
      = (none, initialTokenCache, 1)
    ∧ fetchCharacterProfile cfg now initialTokenCache (.resp 401 body) profT
      = (getMockCharacterProfile cfg now, initialTokenCache, 1, 0)
    ∧ (getMockCharacterProfile cfg now).class_ = "Death Knight" := by
  refine ⟨?_, ?_, rfl⟩
  · simp [getAccessToken, initialTokenCache, tokenTruthy, hid, hsec, statusOk]
  · simp [fetchCharacterProfile, blizzardFetch, getAccessToken, initialTokenCache,
      tokenTruthy, hid, hsec, statusOk]

/-- Witness for C6 at a concrete configuration and transport. -/
theorem getAccessToken_401_profile_fallback_witness :
    getAccessToken { clientId := "id", clientSecret := "secret", region := "us",
                     realm := "area-52", characterName := "toon" } 0
        initialTokenCache (.resp 401 { access_token := "x", expires_in := 100 })
      = (none, initialTokenCache, 1)
    ∧ fetchCharacterProfile { clientId := "id", clientSecret := "secret", region := "us",
                              realm := "area-52", characterName := "toon" } 0
        initialTokenCache (.resp 401 { access_token := "x", expires_in := 100 }) .netFail
      = (getMockCharacterProfile { clientId := "id", clientSecret := "secret", region := "us",
                                   realm := "area-52", characterName := "toon" } 0,
         initialTokenCache, 1, 0)
    ∧ (getMockCharacterProfile { clientId := "id", clientSecret := "secret", region := "us",
                                 realm := "area-52", characterName := "toon" } 0).class_
      = "Death Knight" :=
  getAccessToken_401_profile_fallback
    { clientId := "id", clientSecret := "secret", region := "us",
      realm := "area-52", characterName := "toon" } 0
    { access_token := "x", expires_in := 100 } .netFail (by decide) (by decide)

/-- C5 counterexample: in `fetchAllWoWData`, the token exchange succeeds but
the profile endpoint answers 404, so the profile constituent is the fallback
dataset while `isMockData` — computed as `!accessToken` from the token cache,
not as the OR of constituent provenance — is `false`. The claimed equality
"`isMockData` ⟺ at least one constituent came from fallback" fails here. -/
theorem fetchAllWoWData_flag_not_or_of_provenance :
    ((fetchAllWoWData { clientId := "id", clientSecret := "secret", region := "us",
                        realm := "area-52", characterName := "toon" } 0 initialTokenCache
        { token := .resp 200 { access_token := "TOK", expires_in := 3600 }
          profile := .resp 404 none
          mythic := .resp 200 (some { rating := some 2500
                                      color := some { r := 255, g := 128, b := 0 }
                                      best_runs := some [] })
          raids := .resp 200 (some { expansions := some [{ expansion_name := some "The War Within", instances := some [] }] }) }).1.isMockData
      = false)
    ∧ ((fetchAllWoWData { clientId := "id", clientSecret := "secret", region := "us",
                          realm := "area-52", characterName := "toon" } 0 initialTokenCache
        { token := .resp 200 { access_token := "TOK", expires_in := 3600 }
          profile := .resp 404 none
          mythic := .resp 200 (some { rating := some 2500
                                      color := some { r := 255, g := 128, b := 0 }
                                      best_runs := some [] })
          raids := .resp 200 (some { expansions := some [{ expansion_name := some "The War Within", instances := some [] }] }) }).1.profile
      = getMockCharacterProfile { clientId := "id", clientSecret := "secret", region := "us",
                                  realm := "area-52", characterName := "toon" } 0) :=
  ⟨rfl, rfl⟩

/-- C5 (amended): the POE2 bundle's `isMockData` is exactly the logical OR of
the three constituent results' provenance flags, for every transport and
configuration; the WoW bundle instead derives its flag from the token cache
(see the counterexample). -/
theorem fetchAllPOE2Data_flag_is_or (cfg : POE2Config) (nowMs : Int)
    (tc : HttpResp (Option (List POECharacter)))
    (tl : HttpResp (Option (List POELeague)))
    (tp : HttpResp POEProfileRaw) :
    (fetchAllPOE2Data cfg nowMs tc tl tp).1.isMockData
      = ((fetchCharacters tc nowMs).1.isMockData
         || (fetchLeagues tl).1.isMockData
         || (fetchAccountProfile cfg tp).1.isMockData) := rfl

/-- C7 counterexample: on the live path, a player object whose optional
upstream fields are absent is normalized with those fields left `undefined`
(`realName`, `countryCode`, `personaState`, `lastLogoff`, `timeCreated` are
copied verbatim), refuting "missing optional upstream fields replaced by
documented neutral defaults … and never left unset" — the fallback variant
sets `realName` to `null`, so the two variants also differ there. -/
theorem fetchPlayerSummary_leaves_fields_unset :
    (fetchPlayerSummary "k" "76561198123456789" 0
        (.resp 200 (some [{ steamid := "76561198123456789", personaname := "p",
                            avatarfull := "a", profileurl := "u",
                            personastate := none, lastlogoff := none,
                            timecreated := none, realname := none,
                            loccountrycode := none }]))).1
      = .ok { steamId := "76561198123456789", personaName := "p", avatarUrl := "a",
              profileUrl := "u", personaState := .undef, lastLogoff := .undef,
              timeCreated := .undef, realName := .undef, countryCode := .undef } := rfl

/-- C7 (amended): fields that the adapters explicitly default are set on every
path — the WoW profile's `guild` (defaulted to `null`) is never `undefined`
whatever the transports and cache state, and every owned game's `iconUrl`
(defaulted to `null`) is set in any successful `fetchOwnedGames` result, live
or mock — while verbatim pass-through fields (e.g. `realName`, `lastLogin`)
may be left `undefined` on the live path (see the counterexample). -/
theorem c7_defaulted_fields_always_set :
    (∀ cfg now st tokT profT,
       (fetchCharacterProfile cfg now st tokT profT).1.guild.isSet = true)
    ∧ (∀ apiKey steamId nowMs t r,
       (fetchOwnedGames apiKey steamId nowMs t).1 = .ok r →
       r.games.all (fun g => g.iconUrl.isSet) = true) := by
  constructor
  · intro cfg now st tokT profT
    rcases h : blizzardFetch cfg now st tokT profT with ⟨od, st1, tn, dn⟩
    rcases od with _ | od2
    · simp [fetchCharacterProfile, h, getMockCharacterProfile, JsOpt.isSet]
    · rcases od2 with _ | d
      · simp [fetchCharacterProfile, h, getMockCharacterProfile, JsOpt.isSet]
      · simp only [fetchCharacterProfile, h]
        unfold normalizeWoWProfile
        rcases d.guild_name with _ | s
        · simp [JsOpt.isSet]
        · by_cases hs0 : s = "" <;> simp [hs0, JsOpt.isSet]
  · intro apiKey steamId nowMs t r h
    rcases hcb : hasValidCredentials apiKey steamId with _ | _
    · simp [fetchOwnedGames, hcb] at h
      rw [← h]
      rfl
    · rcases t with _ | ⟨status, body⟩
      · simp [fetchOwnedGames, hcb] at h
        rw [← h]
        rfl
      · rcases hsb : statusOk status with _ | _
        · simp [fetchOwnedGames, hcb, hsb] at h
        · simp [fetchOwnedGames, hcb, hsb] at h
          rw [← h]
          simp only [List.all_eq_true]
          intro g hg
          rcases List.mem_map.1 (mem_sortGamesDesc.1 hg) with ⟨graw, _, hgr⟩
          rw [← hgr]
          exact normalizeOwnedGame_icon_set graw

/-- Witness for C7 (amended): the `guild` invariant at a concrete transport
pair, and the `iconUrl` invariant on the concrete mock result produced without
credentials. -/
theorem c7_defaulted_fields_always_set_witness :
    (fetchCharacterProfile { clientId := "id", clientSecret := "secret", region := "us",
                             realm := "area-52", characterName := "toon" } 0
       initialTokenCache .netFail .netFail).1.guild.isSet = true
    ∧ (getMockOwnedGames 0).games.all (fun g => g.iconUrl.isSet) = true :=
  ⟨c7_defaulted_fields_always_set.1
     { clientId := "id", clientSecret := "secret", region := "us",
       realm := "area-52", characterName := "toon" } 0 initialTokenCache .netFail .netFail,
   c7_defaulted_fields_always_set.2 "" "" 0 .netFail (getMockOwnedGames 0) rfl⟩

/-- C8 counterexample: with a working token, a 200 profile response whose body
parses but violates the expected root shape (every expected field absent) is
silently normalized with the documented defaults — no typed error is
surfaced; the call returns a complete profile with `class = 'Unknown'`,
`level = 80`, etc. This refutes "surfaces a typed MalformedResponse error …
instead of silently substituting default values". -/
theorem fetchCharacterProfile_malformed_silently_defaulted :
    (fetchCharacterProfile { clientId := "id", clientSecret := "secret", region := "us",
                             realm := "stormrage", characterName := "toon" } 0
        initialTokenCache (.resp 200 { access_token := "TOK", expires_in := 3600 })
        (.resp 200 (some { name := none, realm_name := none, class_name := none,
                           race_name := none, level := none, faction_name := none,
                           equipped_item_level := none, average_item_level := none,
                           guild_name := none, last_login_timestamp := none }))).1
      = { name := .undef, realm := "stormrage", class_ := "Unknown", race := "Unknown",
          level := 80, faction := "Unknown", itemLevel := 0, averageItemLevel := 0,
          guild := .null, lastLogin := .undef } := rfl

/-- C8 (amended): the Steam adapter does surface a typed error — a root shape
without a player makes `fetchPlayerSummary` throw `Player not found` — while
the Blizzard profile adapter never does: whenever `blizzardFetch` delivers a
parsed body, however shape-violating, `fetchCharacterProfile` returns its
silently-defaulted normalization. -/
theorem c8_malformed_response_handling :
    (∀ apiKey steamId nowMs status, hasValidCredentials apiKey steamId = true →
       statusOk status = true →
       fetchPlayerSummary apiKey steamId nowMs (.resp status none)
         = (.thrown "Player not found", 1)
       ∧ fetchPlayerSummary apiKey steamId nowMs (.resp status (some []))
         = (.thrown "Player not found", 1))
    ∧ (∀ cfg now st tokT profT d st1 tn dn,
       blizzardFetch cfg now st tokT profT = (some (some d), st1, tn, dn) →
       fetchCharacterProfile cfg now st tokT profT
         = (normalizeWoWProfile cfg d, st1, tn, dn)) := by
  constructor
  · intro apiKey steamId nowMs status hc hs
    constructor
    · simp [fetchPlayerSummary, hc, hs]
    · simp [fetchPlayerSummary, hc, hs]
  · intro cfg now st tokT profT d st1 tn dn h
    simp [fetchCharacterProfile, h]

/-- Witness for C8 (amended) at concrete inputs. -/
theorem c8_malformed_response_handling_witness :
    (fetchPlayerSummary "k" "76561198123456789" 0 (.resp 200 none)
       = (.thrown "Player not found", 1)
     ∧ fetchPlayerSummary "k" "76561198123456789" 0 (.resp 200 (some []))
       = (.thrown "Player not found", 1))
    ∧ fetchCharacterProfile { clientId := "id", clientSecret := "secret", region := "us",
                              realm := "stormrage", characterName := "toon" } 0
        initialTokenCache (.resp 200 { access_token := "TOK", expires_in := 3600 })
        (.resp 200 (some { name := none, realm_name := none, class_name := none,
                           race_name := none, level := none, faction_name := none,
                           equipped_item_level := none, average_item_level := none,
                           guild_name := none, last_login_timestamp := none }))
      = (normalizeWoWProfile { clientId := "id", clientSecret := "secret", region := "us",
                               realm := "stormrage", characterName := "toon" }
           { name := none, realm_name := none, class_name := none,
             race_name := none, level := none, faction_name := none,
             equipped_item_level := none, average_item_level := none,
             guild_name := none, last_login_timestamp := none },
         { accessToken := some "TOK", tokenExpiry := 0 + (3600 - 300) * 1000 }, 1, 1) :=
  ⟨c8_malformed_response_handling.1 "k" "76561198123456789" 0 200 (by decide) (by decide),
   c8_malformed_response_handling.2
     { clientId := "id", clientSecret := "secret", region := "us",
       realm := "stormrage", characterName := "toon" } 0 initialTokenCache
     (.resp 200 { access_token := "TOK", expires_in := 3600 })
     (.resp 200 (some { name := none, realm_name := none, class_name := none,
                        race_name := none, level := none, faction_name := none,
                        equipped_item_level := none, average_item_level := none,
                        guild_name := none, last_login_timestamp := none }))
     { name := none, realm_name := none, class_name := none,
       race_name := none, level := none, faction_name := none,
       equipped_item_level := none, average_item_level := none,
       guild_name := none, last_login_timestamp := none }
     { accessToken := some "TOK", tokenExpiry := 0 + (3600 - 300) * 1000 } 1 1 rfl⟩

/-- C9 counterexample: `getMockCharacterProfile` evaluated at two different
clock readings returns different values (`lastLogin` is `Date.now()`),
refuting "any two invocations, at any two times, return identical values";
the Steam and POE mock datasets embed relative timestamps the same way. -/
theorem getMockCharacterProfile_clock_dependent :
    getMockCharacterProfile { clientId := "", clientSecret := "", region := "us",
                              realm := "area-52", characterName := "toon" } 0
      ≠ getMockCharacterProfile { clientId := "", clientSecret := "", region := "us",
                                  realm := "area-52", characterName := "toon" } 1 := by
  decide

/-- C9 (amended): each mock dataset is a pure function of the ambient clock —
at a fixed clock reading any two invocations agree (they are Lean functions),
and away from the clock-derived recency fields (`lastLogoff`, `lastPlayed`,
`lastActive`, `lastLogin`) the datasets are identical across any two times;
`getMockSteamLevel`, `getMockRecentGames`, `getMockMythicPlusProfile`,
`getMockRaidProgress` and `getMockLeagues` take no clock input at all. -/
theorem mock_datasets_constant_away_from_clock (cfg : WoWConfig) (t1 t2 : Int) :
    (getMockCharacterProfile cfg t1).eraseClock = (getMockCharacterProfile cfg t2).eraseClock
    ∧ (getMockPlayerSummary t1).eraseClock = (getMockPlayerSummary t2).eraseClock
    ∧ (getMockOwnedGames t1).eraseClock = (getMockOwnedGames t2).eraseClock
    ∧ (getMockCharacters t1).eraseClock = (getMockCharacters t2).eraseClock :=
  ⟨rfl, rfl, rfl, rfl⟩
